import Mathlib

/-!
Verification of the film-grading engine (`film_grade.py`): the play-code
parser `parse_codes_to_points` and the per-row grading transform
`compute_row`, embedded shallowly.  Numeric cell values are modelled as
exact rationals; the one irrational operation (`math.sqrt` in the
key-play score term) is modelled with `Real.sqrt`.  Cells whose numeric
coercion (`float(...)` / `int(...)`) raises are modelled by a dedicated
constructor, since the engine's `try/except` blocks branch on exactly
that event.
-/

set_option maxHeartbeats 1000000
set_option maxRecDepth 4000

namespace FilmGrade

/-- A cell value as the engine sees it: either a numeric value (a Python
int or float, represented exactly as a rational), or a value on which
numeric coercion raises (`float(v)` / `int(v)` throw, and the
`isinstance(v, (int, float))` test is false). -/
inductive PyVal where
  | num (q : ℚ)
  | nonnum
deriving DecidableEq

/-- Python `float(v)`: succeeds exactly on numeric values. -/
def floatOf : PyVal → Option ℚ
  | .num q => some q
  | .nonnum => none

/-- Truncation toward zero: the behaviour of Python `int()` on a numeric
value (floats are truncated toward zero, ints are unchanged). -/
def ratTrunc (q : ℚ) : ℤ :=
  if 0 ≤ q then ((q.num.toNat / q.den : ℕ) : ℤ)
  else -(((-q.num).toNat / q.den : ℕ) : ℤ)

/-- Python `int(v)`: truncates numeric values, raises otherwise. -/
def intOf : PyVal → Option ℤ
  | .num q => some (ratTrunc q)
  | .nonnum => none

/-- The fixed play codes of the legend (`LEGEND_POINTS` keys in the source). -/
inductive Code where
  | TD | E | ER | GR | GB | P | FD | MA | SC | DP | H | BR | L | NFS | W
deriving DecidableEq

/-- `LEGEND_POINTS`: constant point value of each fixed code. -/
def LEGEND_POINTS : Code → ℤ
  | .TD => 15
  | .E => 5
  | .ER => 7
  | .GR => 2
  | .GB => 2
  | .P => 10
  | .FD => 5
  | .MA => -10
  | .SC => 10
  | .DP => -15
  | .H => 0
  | .BR => -2
  | .L => -2
  | .NFS => -3
  | .W => -1

/-- `POSITIVE_CODES_FOR_KEYPLAYS`: the codes that count toward the derived
key-play tally. -/
def POSITIVE_CODES_FOR_KEYPLAYS : Code → Bool
  | .TD | .SC | .ER | .GR | .GB | .P | .FD | .E => true
  | _ => false

/-- Python `str.upper()` on the ASCII tokens the legend uses. -/
def strUpper (s : String) : String := ⟨s.data.map Char.toUpper⟩

/-- Membership of an (already upper-cased) token in the `LEGEND_POINTS`
table, returning the matched code. -/
def codeOfString (s : String) : Option Code :=
  if s = "TD" then some .TD
  else if s = "E" then some .E
  else if s = "ER" then some .ER
  else if s = "GR" then some .GR
  else if s = "GB" then some .GB
  else if s = "P" then some .P
  else if s = "FD" then some .FD
  else if s = "MA" then some .MA
  else if s = "SC" then some .SC
  else if s = "DP" then some .DP
  else if s = "H" then some .H
  else if s = "BR" then some .BR
  else if s = "L" then some .L
  else if s = "NFS" then some .NFS
  else if s = "W" then some .W
  else none

/-- A delimiter of the token split `re.split(r"[\s,;]+", ...)`. -/
def isDelim (c : Char) : Bool := c.isWhitespace || c == ',' || c == ';'

/-- `codes_str.replace('(', ' ').replace(')', ' ')`: parentheses become
spaces before splitting. -/
def replaceParens (cs : List Char) : List Char :=
  cs.map fun c => if c == '(' || c == ')' then ' ' else c

/-- Split on runs of delimiters, dropping empty pieces (the source drops
them with `[t.strip() for t in tokens if t.strip()]`; tokens contain no
whitespace after this split, so the strip is the identity there). -/
def splitDelim : List Char → List Char → List String
  | [], acc => if acc.isEmpty then [] else [⟨acc.reverse⟩]
  | c :: cs, acc =>
    if isDelim c then
      if acc.isEmpty then splitDelim cs []
      else (⟨acc.reverse⟩ : String) :: splitDelim cs []
    else splitDelim cs (c :: acc)

/-- Tokenization of a codes string, lines 127-128 of the source. -/
def tokenize (s : String) : List String :=
  splitDelim (replaceParens s.data) []

/-- Parse a nonempty all-digit run (the `\d+` of the yardage patterns). -/
def parseDigitsAux : List Char → ℕ → Option ℕ
  | [], acc => some acc
  | c :: cs, acc =>
    if c.isDigit then parseDigitsAux cs (acc * 10 + (c.toNat - 48)) else none

/-- `\d+`: at least one digit, nothing but digits. -/
def parseDigits : List Char → Option ℕ
  | [] => none
  | c :: cs => parseDigitsAux (c :: cs) 0

/-- `-?\d+`: an optionally negated digit run, as `int(...)` reads it. -/
def parseSignedInt : List Char → Option ℤ
  | '-' :: cs => (parseDigits cs).map fun n => -(n : ℤ)
  | cs => (parseDigits cs).map fun n => (n : ℤ)

/-- The variable-yardage patterns `PATTERN_CATCH_YARDS` / `PATTERN_RUSH_YARDS`
applied to one token.  After tokenization a token contains no whitespace,
parenthesis, comma or semicolon, so the regex's optional decorative groups
`(?:\(?\s*)?` and `(?:\s*\)?)?` can only match the empty string and the
pattern reduces to `^[Xx]\+(-?\d+)$` (case-insensitive on the letter). -/
def matchYard (up low : Char) (t : String) : Option ℤ :=
  match t.data with
  | c :: '+' :: rest => if c == up || c == low then parseSignedInt rest else none
  | _ => none

/-- The five aggregates returned by `parse_codes_to_points`. -/
structure ParseResult where
  total : ℚ
  counts : Code → ℕ
  yards_c : ℤ
  yards_r : ℤ
  derived_keyplays : ℕ

/-- The all-zero aggregates the parser starts from (and returns whole for
null/blank input). -/
def emptyResult : ParseResult :=
  { total := 0, counts := fun _ => 0, yards_c := 0, yards_r := 0, derived_keyplays := 0 }

/-- One iteration of the token loop of `parse_codes_to_points`
(lines 129-148): catch-yardage first, then rush-yardage, then the fixed
code table on the upper-cased token, else ignore. -/
def parseStep (acc : ParseResult) (t : String) : ParseResult :=
  match matchYard 'C' 'c' t with
  | some n =>
    { acc with
      total := acc.total + 0.5 * (n : ℚ),
      yards_c := acc.yards_c + n }
  | none =>
    match matchYard 'R' 'r' t with
    | some n =>
      { acc with
        total := acc.total + 0.5 * (n : ℚ),
        yards_r := acc.yards_r + n }
    | none =>
      match codeOfString (strUpper t) with
      | some c =>
        { acc with
          total := acc.total + (LEGEND_POINTS c : ℚ),
          counts := Function.update acc.counts c (acc.counts c + 1),
          derived_keyplays :=
            acc.derived_keyplays + (if POSITIVE_CODES_FOR_KEYPLAYS c then 1 else 0) }
      | none => acc

/-- `codes_str.strip()` is falsy exactly when every character is whitespace. -/
def isBlank (s : String) : Bool := s.data.all Char.isWhitespace

/-- `parse_codes_to_points`: `none` models a non-string cell (the
`isinstance(codes_str, str)` guard); a blank string short-circuits to the
all-zero result; otherwise the token loop runs. -/
def parse_codes_to_points (codes_str : Option String) : ParseResult :=
  match codes_str with
  | none => emptyResult
  | some s => if isBlank s then emptyResult else (tokenize s).foldl parseStep emptyResult

/-- One input row as `compute_row` receives it, restricted to the
all-numeric fragment for the raw counters; `snaps` and `key_plays` keep
the full dynamic value type because the engine probes them with
`int(...)` / `isinstance` and its behaviour on coercion failure is part
of the contract.  `codes` is `none` for a missing or non-string cell.
`RawRow` below drops the numeric restriction on the counters: over it
the un-guarded addition of line 189 can raise, a path this fragment
cannot exhibit. -/
structure Row where
  snaps : PyVal
  targets : ℚ
  catches : ℚ
  rec_yards : ℚ
  rush_yards : ℚ
  touchdowns : ℚ
  drops : ℚ
  missed_assignments : ℚ
  loafs : ℚ
  key_plays : PyVal
  codes : Option String
deriving DecidableEq

/-- `safe_div`: coerce both operands with `float(...)`, returning 0.0 on
coercion failure or a zero denominator. -/
def safe_div (n d : PyVal) : ℚ :=
  match floatOf n, floatOf d with
  | some a, some b => if b = 0 then 0 else a / b
  | _, _ => 0

/-- `per30`: `n * 30 / snaps`, returning 0.0 on coercion failure or
non-positive snaps. -/
def per30 (n snaps : PyVal) : ℚ :=
  match floatOf n, floatOf snaps with
  | some a, some b => if b ≤ 0 then 0 else a * 30 / b
  | _, _ => 0

/-- `clamp(x, lo, hi) = max(lo, min(hi, x))`. -/
def clamp (x low high : ℝ) : ℝ := max low (min high x)

/-- `letter`: the score-to-grade band table. -/
noncomputable def letter (s : ℝ) : String :=
  if 90 ≤ s then "A"
  else if 80 ≤ s then "B"
  else if 70 ≤ s then "C"
  else if 60 ≤ s then "D"
  else "F"

/-- `snaps_val`: `int(snaps)` with the `except` clause mapping coercion
failure to 0 (lines 166-169). -/
def snaps_val (r : Row) : ℤ := (intOf r.snaps).getD 0

/-- The `missed_assignments` tally after the snap-gating step
(lines 170-172): zeroed when `snaps_val <= 0`. -/
def ma_gated (r : Row) : ℚ :=
  if snaps_val r ≤ 0 then 0 else r.missed_assignments

/-- The `loafs` tally after the snap-gating step. -/
def loafs_gated (r : Row) : ℚ :=
  if snaps_val r ≤ 0 then 0 else r.loafs

/-- The parse of the row's codes string (line 175). -/
def parsed (r : Row) : ParseResult := parse_codes_to_points r.codes

/-- The guard of the annotation override (line 177):
`isinstance(codes_str, str) and codes_str.strip()`. -/
def codes_present (r : Row) : Bool :=
  match r.codes with
  | some s => !isBlank s
  | none => false

/-- The `missed_assignments` tally the engine finally uses: when codes are
present the parser's `MA` count overrides the gated value (lines 177-182;
the counts are ints, so the `int(...)` there never raises and the
`except: pass` branch is dead). -/
def ma_final (r : Row) : ℚ :=
  if codes_present r then ((parsed r).counts Code.MA : ℚ) else ma_gated r

/-- The `loafs` tally the engine finally uses (parser's `L` count when
codes are present). -/
def loafs_final (r : Row) : ℚ :=
  if codes_present r then ((parsed r).counts Code.L : ℚ) else loafs_gated r

/-- Key-play resolution (line 185): the explicit input when it is a number
strictly greater than 0, else the parser's derived count.  A missing
`key_plays` column defaults to the number 0 (line 162), which behaves
identically to an explicit 0. -/
def keyplays (r : Row) : PyVal :=
  match r.key_plays with
  | .num q => if 0 < q then .num q else .num ((parsed r).derived_keyplays : ℚ)
  | .nonnum => .num ((parsed r).derived_keyplays : ℚ)

/-- `catch_rate = safe_div(catches, targets)`. -/
def catch_rate (r : Row) : ℚ := safe_div (.num r.catches) (.num r.targets)

/-- `yards_per_target = safe_div(rec_yards + rush_yards, targets)` on
the numeric fragment, where the addition cannot raise.  In the source
the addition sits outside `safe_div`'s `try` (line 189);
`yards_per_target_raw` below embeds that un-guarded evaluation over raw
cells. -/
def yards_per_target (r : Row) : ℚ :=
  safe_div (.num (r.rec_yards + r.rush_yards)) (.num r.targets)

/-- `tds_per30 = per30(touchdowns, snaps)`. -/
def tds_per30 (r : Row) : ℚ := per30 (.num r.touchdowns) r.snaps

/-- `keyplays_per30 = per30(keyplays, snaps)` (resolved key plays). -/
def keyplays_per30 (r : Row) : ℚ := per30 (keyplays r) r.snaps

/-- `targets_per30 = per30(targets, snaps)`. -/
def targets_per30 (r : Row) : ℚ := per30 (.num r.targets) r.snaps

/-- `drops_rate = safe_div(drops, targets)`. -/
def drops_rate (r : Row) : ℚ := safe_div (.num r.drops) (.num r.targets)

/-- `loafs_per30 = per30(loafs, snaps)` on the final loafs tally. -/
def loafs_per30 (r : Row) : ℚ := per30 (.num (loafs_final r)) r.snaps

/-- `ma_per30 = per30(ma, snaps)` on the final missed-assignments tally. -/
def ma_per30 (r : Row) : ℚ := per30 (.num (ma_final r)) r.snaps

/-- `yards_term = 1.5 * min(safe_div(yards_per_target, 8.0), 1.0)`. -/
def yards_term (r : Row) : ℚ :=
  1.5 * min (safe_div (.num (yards_per_target r)) (.num 8)) 1

/-- `tds_term = 12.0 * min(tds_per30, 1.0)`. -/
def tds_term (r : Row) : ℚ := 12 * min (tds_per30 r) 1

/-- `kp_sqrt_capped = min(sqrt(keyplays_per30) if keyplays_per30 > 0 else 0.0, 1.33)`. -/
noncomputable def kp_sqrt_capped (r : Row) : ℝ :=
  min (if 0 < keyplays_per30 r then Real.sqrt ((keyplays_per30 r : ℚ) : ℝ) else 0) 1.33

/-- `keyplays_term = 6.0 * kp_sqrt_capped`. -/
noncomputable def keyplays_term (r : Row) : ℝ := 6 * kp_sqrt_capped r

/-- `targets_term = 4.0 * min(targets_per30, 1.0)`. -/
def targets_term (r : Row) : ℚ := 4 * min (targets_per30 r) 1

/-- `synergy_term = 1.0 * min(catch_rate * safe_div(yards_per_target, 8.0), 1.0)`. -/
def synergy_term (r : Row) : ℚ :=
  1 * min (catch_rate r * safe_div (.num (yards_per_target r)) (.num 8)) 1

/-- The positive term sum `pos` of lines 207-214. -/
noncomputable def pos_sum (r : Row) : ℝ :=
  15 * ((catch_rate r : ℚ) : ℝ) + ((yards_term r : ℚ) : ℝ) + ((tds_term r : ℚ) : ℝ)
    + keyplays_term r + ((targets_term r : ℚ) : ℝ) + ((synergy_term r : ℚ) : ℝ)

/-- The negative term sum `neg` of lines 215-219. -/
def neg_sum (r : Row) : ℚ :=
  12 * drops_rate r + 4 * loafs_per30 r + 9 * min (ma_per30 r) 1

/-- `score = clamp(base + pos - neg, 0.0, 100.0)` with `base = 73.0`. -/
noncomputable def score (r : Row) : ℝ :=
  clamp (73 + pos_sum r - ((neg_sum r : ℚ) : ℝ)) 0 100

/-- `grade = letter(score)`. -/
noncomputable def grade (r : Row) : String := letter (score r)

/-- The record `compute_row` returns (lines 226-242): derived fields only,
no raw counters. -/
structure RowOut where
  catch_rate : ℚ
  yards_per_target : ℚ
  tds_per30 : ℚ
  keyplays_per30 : ℚ
  targets_per30 : ℚ
  drops_rate : ℚ
  loafs_per30 : ℚ
  ma_per30 : ℚ
  score : ℝ
  grade : String
  code_points : ℚ
  code_catch_yards : ℤ
  code_rush_yards : ℤ
  derived_keyplays : ℕ
  counts : Code → ℕ

/-- `compute_row`: assemble the output record from the derived values. -/
noncomputable def compute_row (r : Row) : RowOut :=
  { catch_rate := catch_rate r,
    yards_per_target := yards_per_target r,
    tds_per30 := tds_per30 r,
    keyplays_per30 := keyplays_per30 r,
    targets_per30 := targets_per30 r,
    drops_rate := drops_rate r,
    loafs_per30 := loafs_per30 r,
    ma_per30 := ma_per30 r,
    score := score r,
    grade := grade r,
    code_points := (parsed r).total,
    code_catch_yards := (parsed r).yards_c,
    code_rush_yards := (parsed r).yards_r,
    derived_keyplays := (parsed r).derived_keyplays,
    counts := (parsed r).counts }

/-- One row of the final results table: `main` concatenates the raw input
columns with the columns `compute_row` produced
(`pd.concat([df, calc_rows], axis=1)`, line 358). -/
structure FullRow where
  snaps : PyVal
  targets : ℚ
  catches : ℚ
  rec_yards : ℚ
  rush_yards : ℚ
  touchdowns : ℚ
  drops : ℚ
  missed_assignments : ℚ
  loafs : ℚ
  key_plays : PyVal
  codes : Option String
  out : RowOut

/-- The per-row effect of line 358: raw columns are copied unchanged and
the derived columns are appended. -/
noncomputable def concat_row (r : Row) : FullRow :=
  { snaps := r.snaps,
    targets := r.targets,
    catches := r.catches,
    rec_yards := r.rec_yards,
    rush_yards := r.rush_yards,
    touchdowns := r.touchdowns,
    drops := r.drops,
    missed_assignments := r.missed_assignments,
    loafs := r.loafs,
    key_plays := r.key_plays,
    codes := r.codes,
    out := compute_row r }

/-- The raw cells of one row exactly as `compute_row` receives them
from the normalized frame: every counter may be non-numeric.  `Row`
above is the all-numeric fragment of this type. -/
structure RawRow where
  snaps : PyVal
  targets : PyVal
  catches : PyVal
  rec_yards : PyVal
  rush_yards : PyVal
  touchdowns : PyVal
  drops : PyVal
  missed_assignments : PyVal
  loafs : PyVal
  key_plays : PyVal
  codes : Option String

/-- Python `+` on two cells as line 189 evaluates it, outside any
`try`: two numeric values add; a numeric and a non-numeric value raise
`TypeError` (`none`); two non-numeric cells — strings, for cells read
from a CSV — concatenate into another non-numeric cell.  (The rare
concatenations of two non-float-parsable strings that parse as a float
are forms of `inf` or `nan`, which the exact-rational value model does
not represent.) -/
def pyAdd : PyVal → PyVal → Option PyVal
  | .num a, .num b => some (.num (a + b))
  | .num _, .nonnum => none
  | .nonnum, .num _ => none
  | .nonnum, .nonnum => some .nonnum

/-- Line 189 as executed, `safe_div((rec_yards + rush_yards), targets)`
over raw cells: the addition happens before `safe_div`'s `try`, so its
`TypeError` propagates out of `compute_row` (`none` here). -/
def yards_per_target_raw (r : RawRow) : Option ℚ :=
  (pyAdd r.rec_yards r.rush_yards).map fun s => safe_div s r.targets

lemma safe_div_eight (a : ℚ) : safe_div (.num a) (.num 8) = a / 8 := by
  norm_num [safe_div, floatOf]

lemma kp_sqrt_capped_eq (r : Row) :
    kp_sqrt_capped r = min (Real.sqrt ((keyplays_per30 r : ℚ) : ℝ)) 1.33 := by
  unfold kp_sqrt_capped
  rcases le_or_lt (keyplays_per30 r) 0 with h | h
  · have h0 : Real.sqrt ((keyplays_per30 r : ℚ) : ℝ) = 0 :=
      Real.sqrt_eq_zero'.mpr (by exact_mod_cast h)
    rw [if_neg (not_lt.mpr h), h0]
  · rw [if_pos h]

/-- Claim C1: for every input record the composite score equals
`clamp(73.0 + positive - negative, 0.0, 100.0)` with
`positive = 15*catch_rate + yards_term + tds_term + keyplays_term +
targets_term + synergy_term` and
`negative = 12*drops_rate + 4*loafs_per30 + 9*min(ma_per30, 1)`, where
`keyplays_term = 6 * min(sqrt(keyplays_per30), 1.33)` (square root of a
non-positive argument counting as 0, the cap applying to the rooted
value); consequently `0 <= score <= 100` for all inputs. -/
theorem c1_score_formula_and_clamp (r : Row) :
    (compute_row r).score =
      clamp (73 +
          (15 * (((compute_row r).catch_rate : ℚ) : ℝ)
            + 1.5 * min ((((compute_row r).yards_per_target : ℚ) : ℝ) / 8) 1
            + 12 * min (((compute_row r).tds_per30 : ℚ) : ℝ) 1
            + 6 * min (Real.sqrt (((compute_row r).keyplays_per30 : ℚ) : ℝ)) 1.33
            + 4 * min (((compute_row r).targets_per30 : ℚ) : ℝ) 1
            + min ((((compute_row r).catch_rate : ℚ) : ℝ)
                * ((((compute_row r).yards_per_target : ℚ) : ℝ) / 8)) 1)
          - (12 * (((compute_row r).drops_rate : ℚ) : ℝ)
            + 4 * (((compute_row r).loafs_per30 : ℚ) : ℝ)
            + 9 * min (((compute_row r).ma_per30 : ℚ) : ℝ) 1)) 0 100
    ∧ 0 ≤ (compute_row r).score ∧ (compute_row r).score ≤ 100 := by
  refine ⟨?_, ?_, ?_⟩
  · simp only [compute_row]
    rw [score, pos_sum, keyplays_term, kp_sqrt_capped_eq, yards_term, tds_term,
      targets_term, synergy_term, neg_sum, safe_div_eight]
    show clamp _ 0 100 = clamp _ 0 100
    congr 1
    push_cast
    ring
  · show 0 ≤ score r
    exact le_max_left 0 _
  · show score r ≤ 100
    exact max_le (by norm_num) (min_le_left _ _)

lemma letter_eq_A_iff (s : ℝ) : letter s = "A" ↔ 90 ≤ s := by
  unfold letter
  split_ifs with h1 h2 h3 h4
  · exact iff_of_true rfl h1
  · exact iff_of_false (by decide) h1
  · exact iff_of_false (by decide) h1
  · exact iff_of_false (by decide) h1
  · exact iff_of_false (by decide) h1

lemma letter_eq_B_iff (s : ℝ) : letter s = "B" ↔ 80 ≤ s ∧ s < 90 := by
  unfold letter
  split_ifs with h1 h2 h3 h4
  · exact iff_of_false (by decide) fun h => absurd h1 (not_le.mpr h.2)
  · exact iff_of_true rfl ⟨h2, not_le.mp h1⟩
  · exact iff_of_false (by decide) fun h => h2 h.1
  · exact iff_of_false (by decide) fun h => h2 h.1
  · exact iff_of_false (by decide) fun h => h2 h.1

lemma letter_eq_C_iff (s : ℝ) : letter s = "C" ↔ 70 ≤ s ∧ s < 80 := by
  unfold letter
  split_ifs with h1 h2 h3 h4
  · exact iff_of_false (by decide) fun h => absurd (le_trans (by norm_num) h1) (not_le.mpr h.2)
  · exact iff_of_false (by decide) fun h => absurd h2 (not_le.mpr h.2)
  · exact iff_of_true rfl ⟨h3, not_le.mp h2⟩
  · exact iff_of_false (by decide) fun h => h3 h.1
  · exact iff_of_false (by decide) fun h => h3 h.1

lemma letter_eq_D_iff (s : ℝ) : letter s = "D" ↔ 60 ≤ s ∧ s < 70 := by
  unfold letter
  split_ifs with h1 h2 h3 h4
  · exact iff_of_false (by decide) fun h => absurd (le_trans (by norm_num) h1) (not_le.mpr h.2)
  · exact iff_of_false (by decide) fun h => absurd (le_trans (by norm_num) h2) (not_le.mpr h.2)
  · exact iff_of_false (by decide) fun h => absurd h3 (not_le.mpr h.2)
  · exact iff_of_true rfl ⟨h4, not_le.mp h3⟩
  · exact iff_of_false (by decide) fun h => h4 h.1

lemma letter_eq_F_iff (s : ℝ) : letter s = "F" ↔ s < 60 := by
  unfold letter
  split_ifs with h1 h2 h3 h4
  · exact iff_of_false (by decide) (not_lt.mpr (le_trans (by norm_num) h1))
  · exact iff_of_false (by decide) (not_lt.mpr (le_trans (by norm_num) h2))
  · exact iff_of_false (by decide) (not_lt.mpr (le_trans (by norm_num) h3))
  · exact iff_of_false (by decide) (not_lt.mpr (le_trans (by norm_num) h4))
  · exact iff_of_true rfl (not_le.mp h4)

/-- Claim C6: for every graded record the letter grade is the band
function of the score (`>=90 → A`, `>=80 → B`, `>=70 → C`, `>=60 → D`,
else `F`, bands inclusive on their lower bound), so
`grade = letter(score)` always holds between the two output fields. -/
theorem c6_grade_score_consistency (r : Row) :
    (compute_row r).grade = letter ((compute_row r).score)
    ∧ ∀ s : ℝ,
        (letter s = "A" ↔ 90 ≤ s)
        ∧ (letter s = "B" ↔ 80 ≤ s ∧ s < 90)
        ∧ (letter s = "C" ↔ 70 ≤ s ∧ s < 80)
        ∧ (letter s = "D" ↔ 60 ≤ s ∧ s < 70)
        ∧ (letter s = "F" ↔ s < 60) :=
  ⟨rfl, fun s =>
    ⟨letter_eq_A_iff s, letter_eq_B_iff s, letter_eq_C_iff s,
      letter_eq_D_iff s, letter_eq_F_iff s⟩⟩

/-- Claim C2 counterexample: the claim quantifies over records whose
`codes` is a *non-empty* string with exactly `k` MA-tokens and `m`
L-tokens.  The record below has `codes = " "` — non-empty, with `k = 0`
and `m = 0` — so the claim demands `missed_assignments = 0` and
`loafs = 0`; but `" ".strip()` is falsy, the override is skipped, and
the engine keeps the raw tallies 5 and 4 (visible in `ma_per30 = 15`
with 10 snaps). -/
theorem c2_counterexample :
    (ma_final ⟨.num 10, 0, 0, 0, 0, 0, 0, 5, 4, .num 0, some " "⟩ = 5)
    ∧ (loafs_final ⟨.num 10, 0, 0, 0, 0, 0, 0, 5, 4, .num 0, some " "⟩ = 4)
    ∧ ¬(" " = "")
    ∧ (parse_codes_to_points (some " ")).counts Code.MA = 0
    ∧ (parse_codes_to_points (some " ")).counts Code.L = 0
    ∧ (compute_row ⟨.num 10, 0, 0, 0, 0, 0, 0, 5, 4, .num 0, some " "⟩).ma_per30 = 15
    ∧ ¬(ma_final ⟨.num 10, 0, 0, 0, 0, 0, 0, 5, 4, .num 0, some " "⟩
          = ((parse_codes_to_points (some " ")).counts Code.MA : ℚ)) := by
  have hc : codes_present ⟨.num 10, 0, 0, 0, 0, 0, 0, 5, 4, .num 0, some " "⟩ = false := by
    decide
  have hg : ¬(snaps_val ⟨.num 10, 0, 0, 0, 0, 0, 0, 5, 4, .num 0, some " "⟩ ≤ 0) := by
    norm_num [snaps_val, intOf, ratTrunc]
  have hm : ma_final ⟨.num 10, 0, 0, 0, 0, 0, 0, 5, 4, .num 0, some " "⟩ = 5 := by
    simp [ma_final, hc, ma_gated, hg]
  have h0 : (parse_codes_to_points (some " ")).counts Code.MA = 0 := by decide
  refine ⟨hm, ?_, by decide, h0, by decide, ?_, ?_⟩
  · simp [loafs_final, hc, loafs_gated, hg]
  · simp only [compute_row, ma_per30, hm]
    norm_num [per30, floatOf]
  · rw [hm, h0]
    norm_num

/-- Claim C2, amended: for every record whose `codes` is a *non-blank*
string (at least one non-whitespace character) containing exactly `k`
MA-tokens and `m` L-tokens, the discipline tallies the engine grades
with are overridden to `missed_assignments = k` and `loafs = m`,
superseding the raw input counters. -/
theorem c2_override_amended (r : Row) (s : String) (hs : r.codes = some s)
    (hb : isBlank s = false) :
    ma_final r = ((parse_codes_to_points r.codes).counts Code.MA : ℚ)
    ∧ loafs_final r = ((parse_codes_to_points r.codes).counts Code.L : ℚ) := by
  have hp : codes_present r = true := by simp [codes_present, hs, hb]
  exact ⟨by simp [ma_final, hp, parsed], by simp [loafs_final, hp, parsed]⟩

/-- Witness for the amended C2: codes `"MA L MA"` with raw counters 7
and 9 yields tallies 2 and 1, the parser's counts. -/
theorem c2_override_witness :
    isBlank "MA L MA" = false
    ∧ ma_final ⟨.num 20, 0, 0, 0, 0, 0, 0, 7, 9, .num 0, some "MA L MA"⟩
        = ((parse_codes_to_points (some "MA L MA")).counts Code.MA : ℚ)
    ∧ loafs_final ⟨.num 20, 0, 0, 0, 0, 0, 0, 7, 9, .num 0, some "MA L MA"⟩
        = ((parse_codes_to_points (some "MA L MA")).counts Code.L : ℚ)
    ∧ (parse_codes_to_points (some "MA L MA")).counts Code.MA = 2
    ∧ (parse_codes_to_points (some "MA L MA")).counts Code.L = 1 :=
  ⟨by decide,
    (c2_override_amended _ "MA L MA" rfl (by decide)).1,
    (c2_override_amended _ "MA L MA" rfl (by decide)).2,
    by decide, by decide⟩

/-- Claim C3 counterexample: the claim says `snaps <= 0` forces both
tallies to 0 regardless of all other inputs *including the codes
string*; but the annotation override (source lines 177-182) runs after
the snap-gate (lines 170-172), so `snaps = 0` with `codes = "MA L"`
yields tallies 1 and 1, not 0 and 0. -/
theorem c3_counterexample :
    snaps_val ⟨.num 0, 0, 0, 0, 0, 0, 0, 0, 0, .num 0, some "MA L"⟩ ≤ 0
    ∧ ma_final ⟨.num 0, 0, 0, 0, 0, 0, 0, 0, 0, .num 0, some "MA L"⟩ = 1
    ∧ loafs_final ⟨.num 0, 0, 0, 0, 0, 0, 0, 0, 0, .num 0, some "MA L"⟩ = 1
    ∧ ¬(ma_final ⟨.num 0, 0, 0, 0, 0, 0, 0, 0, 0, .num 0, some "MA L"⟩ = 0
        ∧ loafs_final ⟨.num 0, 0, 0, 0, 0, 0, 0, 0, 0, .num 0, some "MA L"⟩ = 0) := by
  have hc : codes_present ⟨.num 0, 0, 0, 0, 0, 0, 0, 0, 0, .num 0, some "MA L"⟩ = true := by
    decide
  have hm : ma_final ⟨.num 0, 0, 0, 0, 0, 0, 0, 0, 0, .num 0, some "MA L"⟩ = 1 := by
    have h1 : (parse_codes_to_points (some "MA L")).counts Code.MA = 1 := by decide
    simp [ma_final, hc, parsed, h1]
  have hl : loafs_final ⟨.num 0, 0, 0, 0, 0, 0, 0, 0, 0, .num 0, some "MA L"⟩ = 1 := by
    have h1 : (parse_codes_to_points (some "MA L")).counts Code.L = 1 := by decide
    simp [loafs_final, hc, parsed, h1]
  refine ⟨?_, hm, hl, ?_⟩
  · norm_num [snaps_val, intOf, ratTrunc]
  · intro h
    rw [hm] at h
    exact absurd h.1 (by norm_num)

/-- Claim C3, amended: for every record with `snaps <= 0` (coerced
through `int(...)`) whose `codes` cell is absent, non-string or blank,
the discipline tallies used for grading are forced to 0 regardless of
the raw counters; a non-blank codes string instead sets them to the
parser's MA and L counts. -/
theorem c3_snap_gating_amended (r : Row) (hg : snaps_val r ≤ 0)
    (hc : codes_present r = false) :
    ma_final r = 0 ∧ loafs_final r = 0 := by
  constructor
  · simp [ma_final, hc, ma_gated, hg]
  · simp [loafs_final, hc, loafs_gated, hg]

/-- Witness for the amended C3: zero snaps, no codes cell, raw counters
9 and 8; both tallies are forced to 0. -/
theorem c3_snap_gating_witness :
    snaps_val ⟨.num 0, 0, 0, 0, 0, 0, 0, 9, 8, .num 0, none⟩ ≤ 0
    ∧ codes_present ⟨.num 0, 0, 0, 0, 0, 0, 0, 9, 8, .num 0, none⟩ = false
    ∧ ma_final ⟨.num 0, 0, 0, 0, 0, 0, 0, 9, 8, .num 0, none⟩ = 0
    ∧ loafs_final ⟨.num 0, 0, 0, 0, 0, 0, 0, 9, 8, .num 0, none⟩ = 0 := by
  have hg : snaps_val ⟨.num 0, 0, 0, 0, 0, 0, 0, 9, 8, .num 0, none⟩ ≤ 0 := by
    norm_num [snaps_val, intOf, ratTrunc]
  have h := c3_snap_gating_amended ⟨.num 0, 0, 0, 0, 0, 0, 0, 9, 8, .num 0, none⟩ hg (by decide)
  exact ⟨hg, by decide, h.1, h.2⟩

/-- Claim C4: token rules apply in priority order catch-yardage,
rush-yardage, fixed-code table, ignore; a `C+N` match adds `0.5*N`
points and `N` catch yards and is consumed; `R+N` likewise for rush
yards; otherwise the upper-cased token is looked up in the fixed table,
adding its constant points, bumping its count, and bumping the derived
key-play count exactly for codes in {TD, SC, ER, GR, GB, P, FD, E};
parsing `"TD ER C+12 MA"` gives `total = 18`, counts TD/ER/MA = 1,
`catch yards = 12`, `derived key plays = 2`; parsing `"C+-5"` gives
`total = -2.5`, `catch yards = -5`. -/
theorem c4_parser_priority :
    (∀ (acc : ParseResult) (t : String) (n : ℤ), matchYard 'C' 'c' t = some n →
        parseStep acc t
          = { acc with total := acc.total + 0.5 * (n : ℚ), yards_c := acc.yards_c + n })
    ∧ (∀ (acc : ParseResult) (t : String) (n : ℤ), matchYard 'C' 'c' t = none →
        matchYard 'R' 'r' t = some n →
        parseStep acc t
          = { acc with total := acc.total + 0.5 * (n : ℚ), yards_r := acc.yards_r + n })
    ∧ (∀ (acc : ParseResult) (t : String) (c : Code), matchYard 'C' 'c' t = none →
        matchYard 'R' 'r' t = none → codeOfString (strUpper t) = some c →
        parseStep acc t
          = { acc with
              total := acc.total + (LEGEND_POINTS c : ℚ),
              counts := Function.update acc.counts c (acc.counts c + 1),
              derived_keyplays :=
                acc.derived_keyplays + (if POSITIVE_CODES_FOR_KEYPLAYS c then 1 else 0) })
    ∧ (∀ c : Code, POSITIVE_CODES_FOR_KEYPLAYS c = true
        ↔ c ∈ [Code.TD, Code.SC, Code.ER, Code.GR, Code.GB, Code.P, Code.FD, Code.E])
    ∧ ((parse_codes_to_points (some "TD ER C+12 MA")).total = 18
        ∧ (parse_codes_to_points (some "TD ER C+12 MA")).counts Code.TD = 1
        ∧ (parse_codes_to_points (some "TD ER C+12 MA")).counts Code.ER = 1
        ∧ (parse_codes_to_points (some "TD ER C+12 MA")).counts Code.MA = 1
        ∧ (parse_codes_to_points (some "TD ER C+12 MA")).yards_c = 12
        ∧ (parse_codes_to_points (some "TD ER C+12 MA")).derived_keyplays = 2)
    ∧ ((parse_codes_to_points (some "C+-5")).total = -2.5
        ∧ (parse_codes_to_points (some "C+-5")).yards_c = -5) := by
  refine ⟨?_, ?_, ?_, ?_, ⟨?_, by decide, by decide, by decide, by decide, by decide⟩,
    ⟨?_, by decide⟩⟩
  · intro acc t n h
    simp only [parseStep, h]
  · intro acc t n hc hr
    simp only [parseStep, hc, hr]
  · intro acc t c hc hr hu
    simp only [parseStep, hc, hr, hu]
  · intro c
    cases c <;> decide
  · have e : parse_codes_to_points (some "TD ER C+12 MA")
        = parseStep (parseStep (parseStep (parseStep emptyResult "TD") "ER") "C+12") "MA" :=
      rfl
    have h1c : matchYard 'C' 'c' "TD" = none := by decide
    have h1r : matchYard 'R' 'r' "TD" = none := by decide
    have h1u : codeOfString (strUpper "TD") = some Code.TD := by decide
    have h2c : matchYard 'C' 'c' "ER" = none := by decide
    have h2r : matchYard 'R' 'r' "ER" = none := by decide
    have h2u : codeOfString (strUpper "ER") = some Code.ER := by decide
    have h3c : matchYard 'C' 'c' "C+12" = some 12 := by decide
    have h4c : matchYard 'C' 'c' "MA" = none := by decide
    have h4r : matchYard 'R' 'r' "MA" = none := by decide
    have h4u : codeOfString (strUpper "MA") = some Code.MA := by decide
    rw [e]
    simp only [parseStep, h1c, h1r, h1u, h2c, h2r, h2u, h3c, h4c, h4r, h4u,
      LEGEND_POINTS, POSITIVE_CODES_FOR_KEYPLAYS, emptyResult]
    norm_num
  · have e : parse_codes_to_points (some "C+-5") = parseStep emptyResult "C+-5" := rfl
    have hc : matchYard 'C' 'c' "C+-5" = some (-5) := by decide
    rw [e]
    simp only [parseStep, hc, emptyResult]
    norm_num

/-- Witness for C4: the token `"C+4"` matches the catch-yardage rule and
the single-token equation instantiates to a concrete record update. -/
theorem c4_parser_priority_witness :
    matchYard 'C' 'c' "C+4" = some 4
    ∧ parseStep emptyResult "C+4"
        = { emptyResult with
            total := emptyResult.total + 0.5 * ((4 : ℤ) : ℚ),
            yards_c := emptyResult.yards_c + 4 } :=
  ⟨by decide, c4_parser_priority.1 emptyResult "C+4" 4 (by decide)⟩

/-- Claim C5: the key-play count feeding `keyplays_per30` is the explicit
`key_plays` input when that input is a number strictly greater than 0,
and otherwise (absent — which the ingestion defaults to the number 0 —
zero, negative, or non-numeric) the parser's derived key-play count. -/
theorem c5_keyplay_resolution (r : Row) :
    (∀ q : ℚ, r.key_plays = .num q → 0 < q →
        (compute_row r).keyplays_per30 = per30 (.num q) r.snaps)
    ∧ (∀ q : ℚ, r.key_plays = .num q → q ≤ 0 →
        (compute_row r).keyplays_per30
          = per30 (.num (((parsed r).derived_keyplays : ℚ))) r.snaps)
    ∧ (r.key_plays = .nonnum →
        (compute_row r).keyplays_per30
          = per30 (.num (((parsed r).derived_keyplays : ℚ))) r.snaps) := by
  refine ⟨?_, ?_, ?_⟩
  · intro q hq hpos
    simp only [compute_row, keyplays_per30, keyplays, hq, if_pos hpos]
  · intro q hq hle
    simp only [compute_row, keyplays_per30, keyplays, hq, if_neg (not_lt.mpr hle)]
  · intro h
    simp only [compute_row, keyplays_per30, keyplays, h]

/-- Witness for C5, realising the claim's particular case: `key_plays = 0`
with an annotation deriving 3 key plays uses 3, so over 30 snaps
`keyplays_per30 = 3`. -/
theorem c5_keyplay_witness :
    (compute_row ⟨.num 30, 0, 0, 0, 0, 0, 0, 0, 0, .num 0, some "TD SC P"⟩).keyplays_per30
      = per30 (.num (((parsed ⟨.num 30, 0, 0, 0, 0, 0, 0, 0, 0, .num 0, some "TD SC P"⟩).derived_keyplays : ℚ)))
          (.num 30)
    ∧ (parsed ⟨.num 30, 0, 0, 0, 0, 0, 0, 0, 0, .num 0, some "TD SC P"⟩).derived_keyplays = 3
    ∧ (compute_row ⟨.num 30, 0, 0, 0, 0, 0, 0, 0, 0, .num 0, some "TD SC P"⟩).keyplays_per30 = 3 := by
  have h := (c5_keyplay_resolution
    ⟨.num 30, 0, 0, 0, 0, 0, 0, 0, 0, .num 0, some "TD SC P"⟩).2.1 0 rfl le_rfl
  have hd : (parsed ⟨.num 30, 0, 0, 0, 0, 0, 0, 0, 0, .num 0, some "TD SC P"⟩).derived_keyplays
      = 3 := by decide
  refine ⟨h, hd, ?_⟩
  rw [h, hd]
  norm_num [per30, floatOf]

lemma per30_nonpos (n : PyVal) (q : ℚ) (h : q ≤ 0) : per30 n (.num q) = 0 := by
  cases n <;> simp [per30, floatOf, h]

lemma safe_div_nonnum_left (d : PyVal) : safe_div .nonnum d = 0 := by
  cases d <;> simp [safe_div, floatOf]

/-- Claim C7 counterexample: the claim says rate computations never
raise and that non-numeric or missing operands degrade to 0.0; but
line 189 evaluates `rec_yards + rush_yards` outside `safe_div`'s `try`,
so a record with a non-numeric `rec_yards` cell and numeric
`rush_yards = 5` raises an uncaught `TypeError` (`none` here) instead
of producing the claimed 0.0. -/
theorem c7_counterexample :
    pyAdd PyVal.nonnum (PyVal.num 5) = none
    ∧ yards_per_target_raw
        ⟨.num 60, .num 4, .num 3, .nonnum, .num 5, .num 0, .num 1, .num 0, .num 0,
          .num 0, none⟩ = none
    ∧ ¬(yards_per_target_raw
        ⟨.num 60, .num 4, .num 3, .nonnum, .num 5, .num 0, .num 1, .num 0, .num 0,
          .num 0, none⟩ = some 0) := by
  refine ⟨rfl, rfl, ?_⟩
  intro h
  exact Option.noConfusion h

/-- Claim C7, amended: every rate with a zero denominator is exactly 0
(`targets = 0` zeroes catch rate, drop rate and yards per target; every
per-30 metric is 0 whenever the numeric snaps value is non-positive);
operands that fail float coercion inside `safe_div` or `per30` degrade
to 0.  The sum `rec_yards + rush_yards` feeding `yards_per_target` is
evaluated before `safe_div`'s guard: two numeric cells add, two
non-numeric cells concatenate and the result degrades to 0, and exactly
one non-numeric yardage cell raises an uncaught `TypeError` instead of
degrading. -/
theorem c7_safe_rates_amended :
    (∀ n : PyVal, safe_div n (.num 0) = 0)
    ∧ (∀ d : PyVal, safe_div .nonnum d = 0)
    ∧ (∀ n : PyVal, safe_div n .nonnum = 0)
    ∧ (∀ n : PyVal, per30 n .nonnum = 0)
    ∧ (∀ s : PyVal, per30 .nonnum s = 0)
    ∧ (∀ r : Row, r.targets = 0 →
        (compute_row r).catch_rate = 0 ∧ (compute_row r).drops_rate = 0
          ∧ (compute_row r).yards_per_target = 0)
    ∧ (∀ (r : Row) (q : ℚ), r.snaps = .num q → q ≤ 0 →
        (compute_row r).tds_per30 = 0 ∧ (compute_row r).keyplays_per30 = 0
          ∧ (compute_row r).targets_per30 = 0 ∧ (compute_row r).loafs_per30 = 0
          ∧ (compute_row r).ma_per30 = 0)
    ∧ (∀ (r : RawRow) (a b : ℚ), r.rec_yards = .num a → r.rush_yards = .num b →
        yards_per_target_raw r = some (safe_div (.num (a + b)) r.targets))
    ∧ (∀ r : RawRow, r.rec_yards = .nonnum → r.rush_yards = .nonnum →
        yards_per_target_raw r = some 0)
    ∧ (∀ (r : RawRow) (b : ℚ), r.rec_yards = .nonnum → r.rush_yards = .num b →
        yards_per_target_raw r = none)
    ∧ (∀ (r : RawRow) (a : ℚ), r.rec_yards = .num a → r.rush_yards = .nonnum →
        yards_per_target_raw r = none) := by
  refine ⟨?_, ?_, ?_, ?_, ?_, ?_, ?_, ?_, ?_, ?_, ?_⟩
  · intro n
    cases n <;> simp [safe_div, floatOf]
  · intro d
    exact safe_div_nonnum_left d
  · intro n
    cases n <;> simp [safe_div, floatOf]
  · intro n
    cases n <;> simp [per30, floatOf]
  · intro s
    cases s <;> simp [per30, floatOf]
  · intro r h
    refine ⟨?_, ?_, ?_⟩ <;>
      simp [compute_row, catch_rate, drops_rate, yards_per_target, safe_div, floatOf, h]
  · intro r q hs hq
    refine ⟨?_, ?_, ?_, ?_, ?_⟩ <;>
      simp only [compute_row, tds_per30, keyplays_per30, targets_per30, loafs_per30,
        ma_per30, hs, per30_nonpos _ _ hq]
  · intro r a b ha hb
    simp [yards_per_target_raw, ha, hb, pyAdd]
  · intro r h1 h2
    simp [yards_per_target_raw, h1, h2, pyAdd, safe_div_nonnum_left]
  · intro r b h1 h2
    simp [yards_per_target_raw, h1, h2, pyAdd]
  · intro r a h1 h2
    simp [yards_per_target_raw, h1, h2, pyAdd]

/-- Witness for the amended C7: zero denominators and non-numeric
helper operands give 0; a record with zero targets and zero snaps has
all-zero rates; and the three line-189 cases evaluate concretely —
numeric cells add, two non-numeric cells degrade to 0, one non-numeric
cell raises. -/
theorem c7_safe_rates_amended_witness :
    safe_div (.num 3) (.num 0) = 0
    ∧ per30 (.num 5) .nonnum = 0
    ∧ (compute_row ⟨.num 0, 0, 2, 7, 3, 1, 1, 1, 1, .num 0, none⟩).catch_rate = 0
    ∧ (compute_row ⟨.num 0, 0, 2, 7, 3, 1, 1, 1, 1, .num 0, none⟩).ma_per30 = 0
    ∧ yards_per_target_raw
        ⟨.num 60, .num 4, .num 3, .num 6, .num 2, .num 0, .num 1, .num 0, .num 0,
          .num 0, none⟩ = some (safe_div (.num ((6 : ℚ) + 2)) (.num 4))
    ∧ yards_per_target_raw
        ⟨.num 60, .num 4, .num 3, .nonnum, .nonnum, .num 0, .num 1, .num 0, .num 0,
          .num 0, none⟩ = some 0
    ∧ yards_per_target_raw
        ⟨.num 30, .num 2, .num 1, .nonnum, .num 7, .num 0, .num 0, .num 0, .num 0,
          .num 0, none⟩ = none :=
  ⟨c7_safe_rates_amended.1 (.num 3),
    c7_safe_rates_amended.2.2.2.1 (.num 5),
    (c7_safe_rates_amended.2.2.2.2.2.1 ⟨.num 0, 0, 2, 7, 3, 1, 1, 1, 1, .num 0, none⟩
      rfl).1,
    (c7_safe_rates_amended.2.2.2.2.2.2.1 ⟨.num 0, 0, 2, 7, 3, 1, 1, 1, 1, .num 0, none⟩
      0 rfl le_rfl).2.2.2.2,
    c7_safe_rates_amended.2.2.2.2.2.2.2.1 _ 6 2 rfl rfl,
    c7_safe_rates_amended.2.2.2.2.2.2.2.2.1 _ rfl rfl,
    c7_safe_rates_amended.2.2.2.2.2.2.2.2.2.1 _ 7 rfl rfl⟩

/-- Claim C8: the parser is total and silently tolerant: a non-string,
empty, or whitespace-only annotation yields the all-zero aggregates, and
a token matching no yardage pattern and no fixed code leaves the
aggregates untouched. -/
theorem c8_parser_total :
    parse_codes_to_points none = emptyResult
    ∧ parse_codes_to_points (some "") = emptyResult
    ∧ (∀ s : String, isBlank s = true → parse_codes_to_points (some s) = emptyResult)
    ∧ ((parse_codes_to_points none).total = 0
        ∧ (∀ c : Code, (parse_codes_to_points none).counts c = 0)
        ∧ (parse_codes_to_points none).yards_c = 0
        ∧ (parse_codes_to_points none).yards_r = 0
        ∧ (parse_codes_to_points none).derived_keyplays = 0)
    ∧ (∀ (acc : ParseResult) (t : String), matchYard 'C' 'c' t = none →
        matchYard 'R' 'r' t = none → codeOfString (strUpper t) = none →
        parseStep acc t = acc) := by
  refine ⟨rfl, rfl, ?_, ⟨rfl, fun c => rfl, rfl, rfl, rfl⟩, ?_⟩
  · intro s h
    simp [parse_codes_to_points, h]
  · intro acc t hc hr hu
    simp only [parseStep, hc, hr, hu]

/-- Witness for C8: a whitespace-only annotation collapses to the zero
aggregates, and the junk token `"XZQ"` leaves the accumulator unchanged. -/
theorem c8_parser_total_witness :
    isBlank "  " = true
    ∧ parse_codes_to_points (some "  ") = emptyResult
    ∧ matchYard 'C' 'c' "XZQ" = none
    ∧ matchYard 'R' 'r' "XZQ" = none
    ∧ codeOfString (strUpper "XZQ") = none
    ∧ parseStep emptyResult "XZQ" = emptyResult :=
  ⟨by decide, c8_parser_total.2.2.1 "  " (by decide), by decide, by decide, by decide,
    c8_parser_total.2.2.2.2 emptyResult "XZQ" (by decide) (by decide) (by decide)⟩

/-- Claim C9: the grading transform never modifies the raw input columns
of the emitted record: `compute_row` returns only derived fields, the
concatenated results row keeps every raw counter — including
`missed_assignments` and `loafs` — at its input value, and the gating /
override adjustments surface only through the derived rates. -/
theorem c9_output_frame (r : Row) :
    (concat_row r).missed_assignments = r.missed_assignments
    ∧ (concat_row r).loafs = r.loafs
    ∧ (concat_row r).snaps = r.snaps
    ∧ (concat_row r).targets = r.targets
    ∧ (concat_row r).catches = r.catches
    ∧ (concat_row r).rec_yards = r.rec_yards
    ∧ (concat_row r).rush_yards = r.rush_yards
    ∧ (concat_row r).touchdowns = r.touchdowns
    ∧ (concat_row r).drops = r.drops
    ∧ (concat_row r).key_plays = r.key_plays
    ∧ (concat_row r).codes = r.codes
    ∧ (concat_row r).out = compute_row r
    ∧ (concat_row r).out.ma_per30 = per30 (.num (ma_final r)) r.snaps
    ∧ (concat_row r).out.loafs_per30 = per30 (.num (loafs_final r)) r.snaps :=
  ⟨rfl, rfl, rfl, rfl, rfl, rfl, rfl, rfl, rfl, rfl, rfl, rfl, rfl, rfl⟩

lemma ratTrunc_fract (q : ℚ) (h0 : 0 < q) (h1 : q < 1) : ratTrunc q = 0 := by
  have hdenN : 0 < q.den := Nat.pos_of_ne_zero q.den_nz
  have hden : (0 : ℚ) < (q.den : ℚ) := by exact_mod_cast hdenN
  have hq : (q.num : ℚ) / (q.den : ℚ) = q := Rat.num_div_den q
  have hlt1 : (q.num : ℚ) / (q.den : ℚ) < 1 := by rw [hq]; exact h1
  have hnum : q.num < (q.den : ℤ) := by exact_mod_cast (div_lt_one hden).mp hlt1
  have h0n : 0 ≤ q.num := Rat.num_nonneg.mpr h0.le
  have hlt : q.num.toNat < q.den := by omega
  rw [ratTrunc, if_pos h0.le, Nat.div_eq_of_lt hlt]
  rfl

/-- Claim C10 counterexample: the claim asserts that any record with
fractional snaps strictly between 0 and 1 has its scoring discipline
counters zeroed; with `snaps = 1/2` and `codes = "MA"` the gate does
fire (`int(snaps) = 0`), but the annotation override then sets the
tally to 1, not 0. -/
theorem c10_counterexample :
    (0 : ℚ) < 1 / 2
    ∧ (1 / 2 : ℚ) < 1
    ∧ snaps_val ⟨.num (1 / 2), 2, 0, 0, 0, 1, 0, 4, 3, .num 0, some "MA"⟩ ≤ 0
    ∧ ma_final ⟨.num (1 / 2), 2, 0, 0, 0, 1, 0, 4, 3, .num 0, some "MA"⟩ = 1
    ∧ ¬(ma_final ⟨.num (1 / 2), 2, 0, 0, 0, 1, 0, 4, 3, .num 0, some "MA"⟩ = 0) := by
  have hma : ma_final ⟨.num (1 / 2), 2, 0, 0, 0, 1, 0, 4, 3, .num 0, some "MA"⟩ = 1 := by
    have hc : codes_present ⟨.num (1 / 2), 2, 0, 0, 0, 1, 0, 4, 3, .num 0, some "MA"⟩
        = true := by decide
    have hm : (parsed ⟨.num (1 / 2), 2, 0, 0, 0, 1, 0, 4, 3, .num 0, some "MA"⟩).counts
        Code.MA = 1 := by decide
    rw [ma_final, if_pos hc, hm]
    norm_num
  refine ⟨by norm_num, by norm_num, ?_, hma, ?_⟩
  · have e : snaps_val ⟨.num (1 / 2), 2, 0, 0, 0, 1, 0, 4, 3, .num 0, some "MA"⟩
        = ratTrunc (1 / 2 : ℚ) := rfl
    rw [e, ratTrunc_fract (1 / 2 : ℚ) (by norm_num) (by norm_num)]
  · rw [hma]
    norm_num

/-- Claim C10, amended: snap-gating fires exactly when `int(snaps)`
truncates to a non-positive value or the coercion fails; for fractional
snaps strictly between 0 and 1 — provided no annotation override
applies (blank or absent codes) — the scoring discipline counters are
zeroed even though `snaps > 0` as a float, while the per-30 rates keep
the original float snaps as denominator. -/
theorem c10_gating_amended :
    (∀ (r : Row) (q : ℚ), r.snaps = .num q → (snaps_val r ≤ 0 ↔ ratTrunc q ≤ 0))
    ∧ (∀ r : Row, r.snaps = .nonnum →
        snaps_val r = 0 ∧ (∀ n : PyVal, per30 n r.snaps = 0))
    ∧ (∀ q : ℚ, 0 < q → q < 1 → ratTrunc q = 0)
    ∧ (∀ (r : Row) (q : ℚ), r.snaps = .num q → 0 < q → q < 1 →
        codes_present r = false →
        ma_final r = 0 ∧ loafs_final r = 0
          ∧ (compute_row r).tds_per30 = r.touchdowns * 30 / q
          ∧ (compute_row r).targets_per30 = r.targets * 30 / q
          ∧ (compute_row r).ma_per30 = 0 ∧ (compute_row r).loafs_per30 = 0) := by
  refine ⟨?_, ?_, fun q h0 h1 => ratTrunc_fract q h0 h1, ?_⟩
  · intro r q h
    rw [snaps_val, h, intOf, Option.getD_some]
  · intro r h
    refine ⟨by simp [snaps_val, h, intOf], ?_⟩
    intro n
    rw [h]
    cases n <;> simp [per30, floatOf]
  · intro r q hs h0 h1 hc
    have hg : snaps_val r ≤ 0 := by
      rw [snaps_val, hs, intOf, Option.getD_some, ratTrunc_fract q h0 h1]
    have hma : ma_final r = 0 := by simp [ma_final, hc, ma_gated, hg]
    have hlo : loafs_final r = 0 := by simp [loafs_final, hc, loafs_gated, hg]
    refine ⟨hma, hlo, ?_, ?_, ?_, ?_⟩
    · simp [compute_row, tds_per30, hs, per30, floatOf, not_le.mpr h0]
    · simp [compute_row, targets_per30, hs, per30, floatOf, not_le.mpr h0]
    · simp [compute_row, ma_per30, hma, hs, per30, floatOf]
    · simp [compute_row, loafs_per30, hlo, hs, per30, floatOf]

/-- Witness for the amended C10: `snaps = 1/2` with no codes zeroes the
tallies while `tds_per30 = 1 * 30 / (1/2) = 60` keeps the float
denominator. -/
theorem c10_gating_witness :
    codes_present ⟨.num (1 / 2), 2, 0, 0, 0, 1, 0, 4, 3, .num 0, none⟩ = false
    ∧ ma_final ⟨.num (1 / 2), 2, 0, 0, 0, 1, 0, 4, 3, .num 0, none⟩ = 0
    ∧ loafs_final ⟨.num (1 / 2), 2, 0, 0, 0, 1, 0, 4, 3, .num 0, none⟩ = 0
    ∧ (compute_row ⟨.num (1 / 2), 2, 0, 0, 0, 1, 0, 4, 3, .num 0, none⟩).tds_per30
        = 1 * 30 / (1 / 2)
    ∧ (compute_row ⟨.num (1 / 2), 2, 0, 0, 0, 1, 0, 4, 3, .num 0, none⟩).tds_per30 = 60 := by
  have h := c10_gating_amended.2.2.2 ⟨.num (1 / 2), 2, 0, 0, 0, 1, 0, 4, 3, .num 0, none⟩
    (1 / 2) rfl (by norm_num) (by norm_num) (by decide)
  refine ⟨by decide, h.1, h.2.1, h.2.2.1, ?_⟩
  rw [h.2.2.1]
  norm_num

end FilmGrade
